import Mathlib

/-!
Verification development for the Bitbucket access revoke-and-audit script
(src/bitbucket_revoke_and_audit.js).

The script is shallowly embedded as pure Lean functions.  Every I/O
interaction (the HTTP client, the filesystem, the headless renderer) is
modelled by passing its outcome as an explicit argument, so each source
function becomes a total function from its environment outcomes to the
observable result it produces.  HTTP-client behaviour follows axios
semantics: a call configured with validateStatus always returning true
never throws on a status code (revokeAccess, line 103 of the source),
while a call using the default configuration throws on any status outside
200..299 (verifyAccess, line 115 of the source).  JavaScript falsiness of
strings (empty string is falsy) and of absent object fields (undefined is
falsy) is modelled with Option String, where none stands for an absent
field and the empty string stays falsy.
-/

namespace RevokeAudit

/-! ### String helpers (JavaScript toLowerCase and trim)

These are defined over the character list of the string so that they
compute by kernel reduction on concrete inputs. -/

/-- JavaScript `s.toLowerCase()`: lower-case every character. -/
def jsToLower (s : String) : String := ⟨s.data.map Char.toLower⟩

/-- Drop leading and trailing whitespace from a character list. -/
def trimChars (l : List Char) : List Char :=
  ((l.dropWhile Char.isWhitespace).reverse.dropWhile Char.isWhitespace).reverse

/-- JavaScript `s.trim()`: strip leading and trailing whitespace. -/
def jsTrim (s : String) : String := ⟨trimChars s.data⟩

/-! ### Access Mutation Client: revokeAccess (source lines 96-110) -/

/-- Outcome of the underlying DELETE request.  Because the call sets
validateStatus to a constant true, any received response is returned with
its status; only a transport-level failure throws. -/
inductive DeleteOutcome where
  | response (status : Nat)
  | netError (msg : String)
deriving DecidableEq, Repr

/-- The object returned by revokeAccess: ok, status (null on transport
failure) and the caught error message, if any. -/
structure MutationResult where
  ok : Bool
  status : Option Nat
  errMsg : Option String
deriving DecidableEq, Repr

/-- Source lines 96-110: `return { ok: resp.status === 204, status: resp.status, url }`
on a response, and `return { ok: false, status: null, error: err.message, url }`
in the catch block.  The url field is reproduced from the arguments and
carries no decision content, so it is omitted from the embedding. -/
def revokeAccess (o : DeleteOutcome) : MutationResult :=
  match o with
  | .response s => { ok := s == 204, status := some s, errMsg := none }
  | .netError m => { ok := false, status := none, errMsg := some m }

/-! ### Verdict Reconciler: verifyAccess (source lines 112-132) -/

/-- A nested user object inside one entry of the values array; its name
field may be absent. -/
structure UserField where
  name : Option String
deriving DecidableEq, Repr

/-- One entry of the values array of the GET response: it may carry a flat
name field, a nested user.name field, both, or neither. -/
structure Entry where
  name : Option String
  user : Option UserField
deriving DecidableEq, Repr

/-- The response body of the verify GET: either it has a values array
(`resp.data && Array.isArray(resp.data.values)` holds), or it is malformed
(null body, or no values array). -/
inductive Payload where
  | values (vs : List Entry)
  | malformed
deriving DecidableEq, Repr

/-- The JavaScript expression `v.user && v.user.name` followed by `|| ""`:
an absent user object, an absent nested name, and an empty nested name all
collapse to the empty string. -/
def nestedName (v : Entry) : String :=
  match v.user with
  | some u => u.name.getD ""
  | none => ""

/-- Source line 123: `const nm = v.name || (v.user && v.user.name) || ""`.
A present non-empty flat name wins; an absent or empty flat name falls
through to the nested name, and failing that to the empty string. -/
def principalName (v : Entry) : String :=
  match v.name with
  | some s => if s = "" then nestedName v else s
  | none => nestedName v

/-- Source line 124: `nm.toLowerCase() === username.toLowerCase()`. -/
def entryMatches (username : String) (v : Entry) : Bool :=
  jsToLower (principalName v) == jsToLower username

/-- Source line 122: `resp.data.values.some (...)` — scan the entries,
stopping at the first match. -/
def scanValues (username : String) : List Entry → Bool
  | [] => false
  | v :: rest => if entryMatches username v then true else scanValues username rest

/-- Source lines 120-126: hasAccess starts false and is recomputed only
when the body has a values array. -/
def scanPayload (d : Payload) (username : String) : Bool :=
  match d with
  | .values vs => scanValues username vs
  | .malformed => false

/-- Outcome of the underlying GET request.  The call uses the default
axios configuration, whose validateStatus accepts exactly the statuses
200..299, so a response outside that range is turned into a thrown error
before the success branch runs. -/
inductive GetOutcome where
  | response (status : Nat) (data : Payload)
  | netError (msg : String)
deriving DecidableEq, Repr

/-- The object returned by verifyAccess.  On the success path it carries
ok = true, the status, the computed hasAccess flag and the raw body; the
catch branch returns an object with only ok and the error message, so
status, hasAccess and raw are modelled as absent (none) there. -/
structure VerificationResult where
  ok : Bool
  status : Option Nat
  hasAccess : Option Bool
  raw : Option Payload
  errMsg : Option String
deriving DecidableEq, Repr

/-- The message axios gives a response rejected by validateStatus. -/
def httpErrorMessage (s : Nat) : String :=
  "Request failed with status code " ++ toString s

/-- Source lines 112-132.  A 2xx response reaches the scan and returns
`{ ok: true, status, hasAccess, raw: resp.data, url }`; a non-2xx response
throws inside axios and lands in the same catch block as a transport
error, which returns `{ ok: false, error: err.message, url }` — an object
with no status, no hasAccess and no raw field. -/
def verifyAccess (o : GetOutcome) (username : String) : VerificationResult :=
  match o with
  | .response s d =>
    if 200 ≤ s ∧ s < 300 then
      { ok := true, status := some s, hasAccess := some (scanPayload d username),
        raw := some d, errMsg := none }
    else
      { ok := false, status := none, hasAccess := none, raw := none,
        errMsg := some (httpErrorMessage s) }
  | .netError m =>
      { ok := false, status := none, hasAccess := none, raw := none, errMsg := some m }

/-- How main reads the verdict (source lines 325, 338): `verifyRes.hasAccess`
under JavaScript truthiness, where an absent field is falsy. -/
def verdict (r : VerificationResult) : Bool :=
  r.hasAccess.getD false

/-! ### Evidence Renderer: geometry (source lines 174-188) -/

/-- The rectangle measured by page.evaluate (source lines 174-178): x and y
are Math.floor of the client rect's left/top (possibly negative), width
and height are Math.ceil of its width/height.  A width or height field may
also come back undefined, modelled as none; the sentinel 0 and an absent
value are both falsy in the `rect.width || 1280` read. -/
structure Rect where
  x : Int
  y : Int
  width : Option Nat
  height : Option Nat
deriving DecidableEq, Repr

/-- JavaScript `o || d` on an optional number: an absent value or 0 falls
back to the default. -/
def jsOrNat (o : Option Nat) (d : Nat) : Nat :=
  match o with
  | some n => if n = 0 then d else n
  | none => d

/-- Hard maximum on each clip dimension (source line 181). -/
def MAX_DIM : Nat := 16384

/-- The clip rectangle handed to page.screenshot. -/
structure Clip where
  x : Nat
  y : Nat
  w : Nat
  h : Nat
deriving DecidableEq, Repr

/-- Source lines 182-185: clipX/clipY are clamped below at 0, clipW/clipH
substitute defaults 1280/900 for a falsy measurement and are clamped above
at MAX_DIM. -/
def computeClip (r : Rect) : Clip :=
  { x := (max 0 r.x).toNat
    y := (max 0 r.y).toNat
    w := min (jsOrNat r.width 1280) MAX_DIM
    h := min (jsOrNat r.height 900) MAX_DIM }

/-- Source line 188: the viewport passed to page.setViewport, large enough
to contain the clip area (width at least clipX + clipW, floor 1280; height
at least clipY + clipH, floor 900). -/
def viewportFor (c : Clip) : Nat × Nat :=
  (max (c.x + c.w) 1280, max (c.y + c.h) 900)

/-! ### Image Post-Processor (source lines 191-206)

File contents are modelled abstractly as strings.  The filesystem state
relevant to one capture is the pair of the temporary raw file
(destPng + ".tmp.png") and the final file (destPng); none means the file
does not exist. -/

/-- Contents of the temporary raw capture file and of the final image
file after post-processing. -/
structure FsPair where
  tmp : Option String
  dest : Option String
deriving DecidableEq, Repr

/-- Source lines 199-206, starting from a raw capture already written to
the temporary file.  The outer try runs `sharp(tmpPng).trim().toFile(destPng)`
(outcome trimOut: trimmed contents, or a throw) and then
`fs.unlinkSync(tmpPng)` (throws when unlinkOk is false).  Any throw lands
in the catch, which attempts `fs.renameSync(tmpPng, destPng)` — moving the
raw bytes over the final path — and ignores its own failure (renameOk
false). -/
def postProcess (rawCapture : String) (trimOut : Except String String)
    (unlinkOk renameOk : Bool) : FsPair :=
  match trimOut with
  | .ok trimmed =>
    if unlinkOk then { tmp := none, dest := some trimmed }
    else if renameOk then { tmp := none, dest := some rawCapture }
    else { tmp := some rawCapture, dest := some trimmed }
  | .error _ =>
    if renameOk then { tmp := none, dest := some rawCapture }
    else { tmp := some rawCapture, dest := none }

/-! ### Evidence Renderer: createEvidence (source lines 138-210) -/

/-- The environment of one createEvidence invocation: the outcome of each
step that talks to the renderer process or the filesystem.  rect is the
measurement returned when page.evaluate succeeds; clipShot and fullShot
are the clipped screenshot attempt and its full-page fallback, each either
producing the raw capture contents or throwing. -/
structure RenderEnv where
  rect : Rect
  gotoOk : Bool
  evalOk : Bool
  viewportOk : Bool
  clipShot : Except String String
  fullShot : Except String String
  trimOut : Except String String
  unlinkOk : Bool
  renameOk : Bool
deriving Repr

/-- Observable outcome of one createEvidence invocation: whether the
markup file was written, whether the launched browser was closed, the
final state of the capture files, and the uncaught exception, if one
escaped the invocation. -/
structure EvidenceRun where
  markupWritten : Bool
  browserClosed : Bool
  files : FsPair
  thrown : Option String
deriving DecidableEq, Repr

/-- The tail of createEvidence once a raw capture has been written to the
temporary file: post-process it (source lines 199-206), then
`await browser.close()` (line 207) and return. -/
def finishEvidence (raw : String) (env : RenderEnv) : EvidenceRun :=
  { markupWritten := true
    browserClosed := true
    files := postProcess raw env.trimOut env.unlinkOk env.renameOk
    thrown := none }

/-- Source lines 138-210.  The markup file is written unconditionally
(line 168) before the browser is launched (line 170).  page.goto
(line 172), page.evaluate (line 174) and page.setViewport (line 188) are
not guarded: a throw there escapes the function with the browser still
open.  The clipped screenshot (line 193) is guarded by a fallback
full-page screenshot (line 196); if the fallback itself throws, that
exception escapes unguarded.  browser.close (line 207) runs only after
the post-processing block. -/
def createEvidence (env : RenderEnv) : EvidenceRun :=
  if ¬ env.gotoOk then
    { markupWritten := true, browserClosed := false,
      files := { tmp := none, dest := none }, thrown := some "goto failed" }
  else if ¬ env.evalOk then
    { markupWritten := true, browserClosed := false,
      files := { tmp := none, dest := none }, thrown := some "evaluate failed" }
  else if ¬ env.viewportOk then
    { markupWritten := true, browserClosed := false,
      files := { tmp := none, dest := none }, thrown := some "setViewport failed" }
  else
    match env.clipShot with
    | .ok raw => finishEvidence raw env
    | .error _ =>
      match env.fullShot with
      | .ok raw => finishEvidence raw env
      | .error m =>
        { markupWritten := true, browserClosed := false,
          files := { tmp := none, dest := none }, thrown := some m }

/-! ### Main workflow: per-record loop body (source lines 298-347) -/

/-- One parsed CSV row.  A column absent from the row is none; JavaScript
`row[k] || ''` makes both an absent and an empty column behave as the
empty string before trimming. -/
structure Row where
  username : Option String
  accountId : Option String
  projectKey : Option String
  permission : Option String
  accessStatus : Option String
deriving DecidableEq, Repr

/-- Source lines 299-303: `(row[k] || '').trim()`. -/
def field (o : Option String) : String := jsTrim (o.getD "")

/-- One externally observable output action of the loop body.  writeImage
and appendCsv carry the chosen category: true means the has-access image
directory / output CSV, false the no-access one.  Timestamps and concrete
file paths are impure and carry no decision content, so the CSV line keeps
only the data fields and the status label. -/
inductive Action where
  | log (msg : String)
  | writeMarkup
  | writeImage (hasAccessSide : Bool)
  | appendCsv (hasAccessSide : Bool) (line : String)
deriving DecidableEq, Repr

/-- The CSV line appended for a record (source lines 339-345), without the
timestamp and screenshot-path columns. -/
def csvLine (user accId project permission : String) (cat : Bool) : String :=
  user ++ "," ++ accId ++ "," ++ project ++ "," ++ permission ++ ","
    ++ (if cat then "HAS_ACCESS" else "NO_ACCESS")

/-- The three console lines emitted for a processed record (source lines
312, 316, 320): the revoke outcome appears only here. -/
def recordLogs (row : Row) (rOut : DeleteOutcome) (cat : Bool) : List Action :=
  [ .log ("Revoking access for " ++ field row.username ++ " on project "
        ++ field row.projectKey),
    .log ("Revoke: " ++ (match (revokeAccess rOut).status with
                         | some s => toString s
                         | none => "null")
        ++ " " ++ (if (revokeAccess rOut).ok then "OK" else "FAILED")),
    .log ("Verify: " ++ (if cat then "Still HAS_ACCESS" else "NO_ACCESS")) ]

/-- Source lines 312-346: the part of the loop body that runs for a row
that passed both skip checks.  The revoke result feeds only the log line;
destPng's directory (lines 325-327) and the appended CSV row (lines
338-346) are both chosen by the verdict of the verify result.  The markup
write happens inside createEvidence before any renderer step can throw;
the image-write action is emitted when post-processing left contents at
the final path; the CSV append runs only when createEvidence returned
normally. -/
def processQualifying (row : Row) (rOut : DeleteOutcome) (vOut : GetOutcome)
    (renv : RenderEnv) : List Action × Option String :=
  let cat := verdict (verifyAccess vOut (field row.username))
  let ev := createEvidence renv
  match ev.thrown with
  | some m => (recordLogs row rOut cat ++ [.writeMarkup], some m)
  | none =>
    (recordLogs row rOut cat ++ [.writeMarkup]
      ++ (if ev.files.dest.isSome then [Action.writeImage cat] else [])
      ++ [.appendCsv cat (csvLine (field row.username) (field row.accountId)
            (field row.projectKey) (field row.permission) cat)], none)

/-- Source lines 298-347, the body of the for-loop for one row, given the
outcomes of the two API calls and of the renderer steps.  Returns the
emitted actions and the uncaught exception if one escaped (an escaped
exception aborts the whole batch via the top-level catch at line 355).
Rows with an empty trimmed Username or Project Key are skipped silently
(line 305); rows whose trimmed Access Status is not HAS_ACCESS are skipped
with a log line (lines 307-310). -/
def processRow (row : Row) (rOut : DeleteOutcome) (vOut : GetOutcome)
    (renv : RenderEnv) : List Action × Option String :=
  if field row.username = "" ∨ field row.projectKey = "" then ([], none)
  else if field row.accessStatus ≠ "HAS_ACCESS" then
    ([.log ("Skipping " ++ field row.username ++ " - already NO_ACCESS")], none)
  else processQualifying row rOut vOut renv

/-! ### Batch Report Assembler and the report phase (source lines 216-272, 349-351) -/

/-- Source lines 216-272, abstracted to what the claims need: createDocx
returns without writing anything when the directory holds no png files
(line 218), and otherwise assembles the document and awaits the write of
the output stream, whose failure rejects the awaited promise (lines
264-269) and so throws out of createDocx.  The result records whether a
document was written. -/
def createDocx (pngFiles : List String) (writeOut : Except String Unit) :
    Except String Bool :=
  if pngFiles.isEmpty then .ok false
  else
    match writeOut with
    | .ok _ => .ok true
    | .error m => .error m

/-- Outcome of the report phase: whether each of the two createDocx calls
was reached and wrote its document, and the error that escaped to the
top-level catch, if any. -/
structure ReportPhase where
  firstAttempted : Bool
  firstWritten : Bool
  secondAttempted : Bool
  secondWritten : Bool
  fatal : Option String
deriving DecidableEq, Repr

/-- Source lines 349-351: the two createDocx calls are awaited in
sequence inside the single try block of main, so an exception from the
first jumps to the catch at line 355 and the second call never runs. -/
def runReports (hasFiles noFiles : List String)
    (w1 w2 : Except String Unit) : ReportPhase :=
  match createDocx hasFiles w1 with
  | .error m =>
    { firstAttempted := true, firstWritten := false,
      secondAttempted := false, secondWritten := false, fatal := some m }
  | .ok b1 =>
    match createDocx noFiles w2 with
    | .error m =>
      { firstAttempted := true, firstWritten := b1,
        secondAttempted := true, secondWritten := false, fatal := some m }
    | .ok b2 =>
      { firstAttempted := true, firstWritten := b1,
        secondAttempted := true, secondWritten := b2, fatal := none }

/-! ### Action classifiers used by the counting theorems -/

def isMarkup : Action → Bool
  | .writeMarkup => true
  | _ => false

def isImage : Action → Bool
  | .writeImage _ => true
  | _ => false

def isImageTo (side : Bool) : Action → Bool
  | .writeImage b => b == side
  | _ => false

def isAppend : Action → Bool
  | .appendCsv _ _ => true
  | _ => false

def isAppendTo (side : Bool) : Action → Bool
  | .appendCsv b _ => b == side
  | _ => false

def isLog : Action → Bool
  | .log _ => true
  | _ => false

/-! ### Concrete fixtures used by sanity checks and witnesses -/

/-- A renderer environment in which every step succeeds. -/
def okEnv : RenderEnv :=
  { rect := { x := 0, y := 0, width := some 600, height := some 400 }
    gotoOk := true, evalOk := true, viewportOk := true
    clipShot := .ok "RAW", fullShot := .ok "RAW"
    trimOut := .ok "TRIMMED", unlinkOk := true, renameOk := true }

/-- A fully populated input row flagged as still having access. -/
def row0 : Row :=
  { username := some "jdoe", accountId := some "A-100"
    projectKey := some "PROJ1", permission := some "PROJECT_WRITE"
    accessStatus := some "HAS_ACCESS" }

example : revokeAccess (.response 204) = { ok := true, status := some 204, errMsg := none } := rfl
example : revokeAccess (.response 200) = { ok := false, status := some 200, errMsg := none } := rfl
example : scanValues "jdoe" [{ name := some "JDoe", user := none }] = true := by decide
example : scanValues "jdoe" [{ name := none, user := some { name := some "JDOE" } }] = true := by decide
example : scanPayload (.values []) "jdoe" = false := rfl
example : verdict (verifyAccess (.response 404 (.values [{ name := some "jdoe", user := none }])) "jdoe") = false := rfl
example : field (some "  HAS_ACCESS ") = "HAS_ACCESS" := by decide
example :
    ((processRow row0 (.response 204) (.response 200 (.values [])) okEnv).1.filter isAppend).length
      = 1 := by decide

/-! ### Supporting lemmas -/

theorem jsToLower_data (s : String) : (jsToLower s).data = s.data.map Char.toLower := rfl

/-- Lower-casing never turns a non-empty string into the empty string. -/
theorem jsToLower_ne_empty (s : String) (h : s ≠ "") : jsToLower s ≠ "" := by
  intro he
  apply h
  have hd : (jsToLower s).data = ([] : List Char) := by rw [he]
  rw [jsToLower_data, List.map_eq_nil_iff] at hd
  cases s
  simp_all

/-- The scan of the values array is the boolean any of the entry match. -/
theorem scanValues_eq_any (u : String) (vs : List Entry) :
    scanValues u vs = vs.any (entryMatches u) := by
  induction vs with
  | nil => rfl
  | cons v rest ih =>
    by_cases h : entryMatches u v = true <;> simp [scanValues, h, ih]

/-- An entry with an absent or empty flat name and an absent or empty
nested name has the empty principal name. -/
theorem principalName_eq_empty_of_no_shape (v : Entry)
    (hn : v.name = none ∨ v.name = some "")
    (hu : v.user = none ∨ ∃ uf, v.user = some uf ∧ (uf.name = none ∨ uf.name = some "")) :
    principalName v = "" := by
  have hnest : nestedName v = "" := by
    rcases hu with h | ⟨uf, huf, hufn⟩
    · simp [nestedName, h]
    · rcases hufn with h2 | h2 <;> simp [nestedName, huf, h2]
  rcases hn with h | h <;> simp [principalName, h, hnest]

@[simp] theorem isMarkup_log (m : String) : isMarkup (.log m) = false := rfl
@[simp] theorem isMarkup_markup : isMarkup .writeMarkup = true := rfl
@[simp] theorem isMarkup_image (b : Bool) : isMarkup (.writeImage b) = false := rfl
@[simp] theorem isMarkup_append (b : Bool) (l : String) : isMarkup (.appendCsv b l) = false := rfl

@[simp] theorem isImage_log (m : String) : isImage (.log m) = false := rfl
@[simp] theorem isImage_markup : isImage .writeMarkup = false := rfl
@[simp] theorem isImage_image (b : Bool) : isImage (.writeImage b) = true := rfl
@[simp] theorem isImage_append (b : Bool) (l : String) : isImage (.appendCsv b l) = false := rfl

@[simp] theorem isImageTo_log (s : Bool) (m : String) : isImageTo s (.log m) = false := rfl
@[simp] theorem isImageTo_markup (s : Bool) : isImageTo s .writeMarkup = false := rfl
@[simp] theorem isImageTo_image (s b : Bool) : isImageTo s (.writeImage b) = (b == s) := rfl
@[simp] theorem isImageTo_append (s b : Bool) (l : String) :
    isImageTo s (.appendCsv b l) = false := rfl

@[simp] theorem isAppend_log (m : String) : isAppend (.log m) = false := rfl
@[simp] theorem isAppend_markup : isAppend .writeMarkup = false := rfl
@[simp] theorem isAppend_image (b : Bool) : isAppend (.writeImage b) = false := rfl
@[simp] theorem isAppend_append (b : Bool) (l : String) : isAppend (.appendCsv b l) = true := rfl

@[simp] theorem isAppendTo_log (s : Bool) (m : String) : isAppendTo s (.log m) = false := rfl
@[simp] theorem isAppendTo_markup (s : Bool) : isAppendTo s .writeMarkup = false := rfl
@[simp] theorem isAppendTo_image (s b : Bool) : isAppendTo s (.writeImage b) = false := rfl
@[simp] theorem isAppendTo_append (s b : Bool) (l : String) :
    isAppendTo s (.appendCsv b l) = (b == s) := rfl

@[simp] theorem isLog_log (m : String) : isLog (.log m) = true := rfl
@[simp] theorem isLog_markup : isLog .writeMarkup = false := rfl
@[simp] theorem isLog_image (b : Bool) : isLog (.writeImage b) = false := rfl
@[simp] theorem isLog_append (b : Bool) (l : String) : isLog (.appendCsv b l) = false := rfl

/-- Every action of the record logs is a log line. -/
theorem recordLogs_all_log (row : Row) (rOut : DeleteOutcome) (cat : Bool) :
    ∀ a ∈ recordLogs row rOut cat, isLog a = true := by
  intro a ha
  simp only [recordLogs, List.mem_cons, List.mem_singleton] at ha
  rcases ha with h | h | h | h <;> first | (subst h; rfl) | cases h

/-- Filtering the record logs with any classifier that rejects log lines
gives the empty list. -/
theorem recordLogs_filter_eq_nil (row : Row) (rOut : DeleteOutcome) (cat : Bool)
    (p : Action → Bool) (hp : ∀ m, p (.log m) = false) :
    (recordLogs row rOut cat).filter p = [] := by
  simp only [recordLogs, List.filter, hp]

/-- A row that qualifies for processing reaches processQualifying. -/
theorem processRow_eq_qualifying (row : Row) (rOut : DeleteOutcome) (vOut : GetOutcome)
    (renv : RenderEnv) (hu : field row.username ≠ "") (hp : field row.projectKey ≠ "")
    (hs : field row.accessStatus = "HAS_ACCESS") :
    processRow row rOut vOut renv = processQualifying row rOut vOut renv := by
  simp [processRow, hu, hp, hs]

/-- A skipped row emits no markup, image or append action. -/
theorem processRow_skipped_filter (row : Row) (rOut : DeleteOutcome) (vOut : GetOutcome)
    (renv : RenderEnv) (p : Action → Bool) (hp : ∀ m, p (.log m) = false)
    (h : field row.username = "" ∨ field row.projectKey = ""
        ∨ field row.accessStatus ≠ "HAS_ACCESS") :
    (processRow row rOut vOut renv).1.filter p = [] := by
  by_cases h1 : field row.username = "" ∨ field row.projectKey = ""
  · simp [processRow, h1]
  · have h2 : field row.accessStatus ≠ "HAS_ACCESS" := by tauto
    simp [processRow, h1, h2, List.filter, hp]

/-! ### Claim theorems -/

/-- C4: revokeAccess returns succeeded = true iff the HTTP status is
exactly 204; any other status yields succeeded = false with that status
recorded; a network-layer exception is converted to a result with
succeeded = false, no status and the error message recorded.  The
embedding is a total function of the request outcome, so no exception
propagates to the caller. -/
theorem claim_c4_revoke_success_iff_204 :
    (∀ s, (revokeAccess (.response s)).ok = true ↔ s = 204) ∧
    (∀ s, s ≠ 204 →
      revokeAccess (.response s) = { ok := false, status := some s, errMsg := none }) ∧
    (∀ m, revokeAccess (.netError m) = { ok := false, status := none, errMsg := some m }) := by
  refine ⟨?_, ?_, ?_⟩
  · intro s
    simp [revokeAccess]
  · intro s h
    simp [revokeAccess, h]
  · intro m
    rfl

/-- Witness for C4 at statuses 204, 200 (another 2xx) and a transport
error. -/
theorem claim_c4_revoke_success_iff_204_witness :
    ((revokeAccess (.response 204)).ok = true ↔ (204 : Nat) = 204) ∧
    revokeAccess (.response 200) = { ok := false, status := some 200, errMsg := none } ∧
    revokeAccess (.netError "socket hang up")
      = { ok := false, status := none, errMsg := some "socket hang up" } :=
  ⟨claim_c4_revoke_success_iff_204.1 204,
   claim_c4_revoke_success_iff_204.2.1 200 (by decide),
   claim_c4_revoke_success_iff_204.2.2 "socket hang up"⟩

/-- C6: when the verify request throws at the transport level, the result
has succeeded = false and its verdict reads as the default false (the
returned object carries no hasAccess field, which is falsy). -/
theorem claim_c6_verify_transport_default (m u : String) :
    (verifyAccess (.netError m) u).ok = false ∧
    (verifyAccess (.netError m) u).hasAccess = none ∧
    verdict (verifyAccess (.netError m) u) = false :=
  ⟨rfl, rfl, rfl⟩

/-- C2 counterexample: with both image directories non-empty, a write
failure in the first (has-access) report makes the whole report phase
abort: the second (no-access) assembly is never attempted, contradicting
the claim that the sibling category is still generated. -/
theorem claim_c2_counterexample :
    (runReports ["a.png"] ["b.png"] (.error "EACCES: permission denied") (.ok ())).secondAttempted
        = false ∧
    (runReports ["a.png"] ["b.png"] (.error "EACCES: permission denied") (.ok ())).fatal
        = some "EACCES: permission denied" :=
  ⟨rfl, rfl⟩

/-- C2 amended: the two createDocx calls run in sequence inside one try
block, so a write failure in the first report escapes to the top-level
handler as a fatal error for the whole remaining run and the second
assembly is not attempted; the second report is assembled exactly when
the first createDocx call returns without throwing. -/
theorem claim_c2_amended_first_failure_aborts (hasFiles noFiles : List String)
    (w1 w2 : Except String Unit) :
    (∀ m, createDocx hasFiles w1 = .error m →
      runReports hasFiles noFiles w1 w2
        = { firstAttempted := true, firstWritten := false,
            secondAttempted := false, secondWritten := false, fatal := some m }) ∧
    (∀ b, createDocx hasFiles w1 = .ok b →
      (runReports hasFiles noFiles w1 w2).secondAttempted = true) := by
  refine ⟨?_, ?_⟩
  · intro m h
    simp [runReports, h]
  · intro b h
    cases h2 : createDocx noFiles w2 <;> simp [runReports, h, h2]

/-- Witness for the amended C2: a concrete failing first write and a
concrete successful first write. -/
theorem claim_c2_amended_first_failure_aborts_witness :
    (runReports ["a.png"] ["b.png"] (.error "boom") (.ok ())
      = { firstAttempted := true, firstWritten := false,
          secondAttempted := false, secondWritten := false, fatal := some "boom" }) ∧
    (runReports ["a.png"] ["b.png"] (.ok ()) (.ok ())).secondAttempted = true :=
  ⟨(claim_c2_amended_first_failure_aborts ["a.png"] ["b.png"] (.error "boom") (.ok ())).1
      "boom" rfl,
   (claim_c2_amended_first_failure_aborts ["a.png"] ["b.png"] (.ok ()) (.ok ())).2
      true rfl⟩

/-- C7 counterexample: a navigation failure (page.goto throws) escapes
createEvidence before the browser.close line is reached, so the rendering
engine instance is not released on that exit path. -/
theorem claim_c7_counterexample :
    (createEvidence
      { rect := { x := 0, y := 0, width := some 600, height := some 400 }
        gotoOk := false, evalOk := true, viewportOk := true
        clipShot := .ok "RAW", fullShot := .ok "RAW"
        trimOut := .ok "TRIMMED", unlinkOk := true, renameOk := true }).browserClosed = false ∧
    (createEvidence
      { rect := { x := 0, y := 0, width := some 600, height := some 400 }
        gotoOk := false, evalOk := true, viewportOk := true
        clipShot := .ok "RAW", fullShot := .ok "RAW"
        trimOut := .ok "TRIMMED", unlinkOk := true, renameOk := true }).thrown
        = some "goto failed" :=
  ⟨rfl, rfl⟩

/-- C7 amended: the browser is closed exactly on the invocations from
which no exception escapes.  The guarded failure paths (clipped screenshot
falling back to a full-page screenshot, trim or temp-file cleanup
failures) are caught and still reach browser.close, but an exception in
navigation, measurement, viewport resize, or the fallback screenshot
itself escapes with the browser left open. -/
theorem claim_c7_amended_closed_iff_no_throw (env : RenderEnv) :
    (createEvidence env).browserClosed = ((createEvidence env).thrown).isNone := by
  by_cases hg : env.gotoOk <;>
    by_cases he : env.evalOk <;>
      by_cases hv : env.viewportOk <;>
        simp [createEvidence, hg, he, hv]
  cases env.clipShot <;> cases env.fullShot <;> simp [finishEvidence]

/-- C8 counterexample: when trimming throws and the fallback rename of the
raw capture also throws, the failure is swallowed: no final image file is
produced and the temporary raw file remains, contradicting the claim that
in all trim-failure runs the raw capture becomes the final file and no
temporary file remains. -/
theorem claim_c8_counterexample :
    (postProcess "RAWBYTES" (.error "unsupported image format") true false).dest = none ∧
    (postProcess "RAWBYTES" (.error "unsupported image format") true false).tmp
      = some "RAWBYTES" :=
  ⟨rfl, rfl⟩

/-- C8 amended: if trimming succeeds and the temp-file unlink succeeds,
the trimmed image is the final file and no temporary file remains; if
trimming throws and the fallback rename succeeds, the raw capture's bytes
become the final file and no temporary file remains; but if the fallback
rename itself throws, its failure is ignored, no final file exists and the
temporary raw file is left behind. -/
theorem claim_c8_amended_trim_fallback (raw trimmed m : String) (unlinkOk renameOk : Bool) :
    (unlinkOk = true →
      postProcess raw (.ok trimmed) unlinkOk renameOk = { tmp := none, dest := some trimmed }) ∧
    (renameOk = true →
      postProcess raw (.error m) unlinkOk renameOk = { tmp := none, dest := some raw }) ∧
    (renameOk = false →
      postProcess raw (.error m) unlinkOk renameOk = { tmp := some raw, dest := none }) := by
  refine ⟨?_, ?_, ?_⟩ <;> intro h <;> simp [postProcess, h]

/-- Witness for the amended C8 on concrete captures. -/
theorem claim_c8_amended_trim_fallback_witness :
    (postProcess "RAW" (.ok "TRIM") true true = { tmp := none, dest := some "TRIM" }) ∧
    (postProcess "RAW" (.error "bad png") false true = { tmp := none, dest := some "RAW" }) ∧
    (postProcess "RAW" (.error "bad png") false false = { tmp := some "RAW", dest := none }) :=
  ⟨(claim_c8_amended_trim_fallback "RAW" "TRIM" "bad png" true true).1 rfl,
   (claim_c8_amended_trim_fallback "RAW" "TRIM" "bad png" false true).2.1 rfl,
   (claim_c8_amended_trim_fallback "RAW" "TRIM" "bad png" false false).2.2 rfl⟩

/-- C9: each clip dimension is clamped to at most 16384; a zero or absent
width measurement is replaced by 1280 and a zero or absent height by 900;
and the viewport is at least as wide as clip x plus the clamped width and
at least as tall as clip y plus the clamped height. -/
theorem claim_c9_clip_clamped (r : Rect) :
    (computeClip r).w ≤ 16384 ∧
    (computeClip r).h ≤ 16384 ∧
    ((r.width = none ∨ r.width = some 0) → (computeClip r).w = 1280) ∧
    ((r.height = none ∨ r.height = some 0) → (computeClip r).h = 900) ∧
    (computeClip r).x + (computeClip r).w ≤ (viewportFor (computeClip r)).1 ∧
    (computeClip r).y + (computeClip r).h ≤ (viewportFor (computeClip r)).2 := by
  refine ⟨?_, ?_, ?_, ?_, ?_, ?_⟩
  · exact min_le_right _ _
  · exact min_le_right _ _
  · intro h
    rcases h with h | h <;> simp [computeClip, jsOrNat, MAX_DIM, h]
  · intro h
    rcases h with h | h <;> simp [computeClip, jsOrNat, MAX_DIM, h]
  · exact le_max_left _ _
  · exact le_max_left _ _

/-- Witness for C9 at a rectangle with a negative origin, zero width and
an undefined height. -/
theorem claim_c9_clip_clamped_witness :
    (computeClip { x := -4, y := 3, width := some 0, height := none }).w ≤ 16384 ∧
    (computeClip { x := -4, y := 3, width := some 0, height := none }).h ≤ 16384 ∧
    (computeClip { x := -4, y := 3, width := some 0, height := none }).w = 1280 ∧
    (computeClip { x := -4, y := 3, width := some 0, height := none }).h = 900 ∧
    (computeClip { x := -4, y := 3, width := some 0, height := none }).x
        + (computeClip { x := -4, y := 3, width := some 0, height := none }).w
      ≤ (viewportFor (computeClip { x := -4, y := 3, width := some 0, height := none })).1 ∧
    (computeClip { x := -4, y := 3, width := some 0, height := none }).y
        + (computeClip { x := -4, y := 3, width := some 0, height := none }).h
      ≤ (viewportFor (computeClip { x := -4, y := 3, width := some 0, height := none })).2 := by
  have h := claim_c9_clip_clamped { x := -4, y := 3, width := some 0, height := none }
  exact ⟨h.1, h.2.1, h.2.2.1 (Or.inr rfl), h.2.2.2.1 (Or.inl rfl),
    h.2.2.2.2.1, h.2.2.2.2.2⟩

/-- C5: for a successful (2xx) verify response, stillHasAccess is true iff
some entry of the values list has a principal name that equals the target
username case-insensitively, the principal name being the flat name field
or, failing that, the nested user.name field; an empty list, a payload
without a values array, and entries carrying neither name shape all give
stillHasAccess = false; and the scan stops at the first matching entry.
The target username is assumed non-empty, as guaranteed by the caller
(main skips rows with an empty trimmed Username before calling verify). -/
theorem claim_c5_verify_match (u : String) (hu : u ≠ "") :
    (∀ s d, 200 ≤ s → s < 300 →
      ((verifyAccess (.response s d) u).hasAccess = some true ↔
        ∃ vs, d = .values vs ∧ ∃ v ∈ vs, jsToLower (principalName v) = jsToLower u)) ∧
    (∀ s, 200 ≤ s → s < 300 →
      (verifyAccess (.response s (.values [])) u).hasAccess = some false) ∧
    (∀ s, 200 ≤ s → s < 300 →
      (verifyAccess (.response s .malformed) u).hasAccess = some false) ∧
    (∀ vs, (∀ v ∈ vs, (v.name = none ∨ v.name = some "") ∧
        (v.user = none ∨ ∃ uf, v.user = some uf ∧ (uf.name = none ∨ uf.name = some ""))) →
      scanPayload (.values vs) u = false) ∧
    (∀ v rest, entryMatches u v = true → scanValues u (v :: rest) = true) := by
  refine ⟨?_, ?_, ?_, ?_, ?_⟩
  · intro s d h1 h2
    simp only [verifyAccess, if_pos (And.intro h1 h2), Option.some.injEq]
    cases d with
    | values vs =>
      simp only [scanPayload, scanValues_eq_any, List.any_eq_true, entryMatches, beq_iff_eq]
      constructor
      · rintro ⟨v, hv, hm⟩
        exact ⟨vs, rfl, v, hv, hm⟩
      · rintro ⟨vs2, hvs2, v, hv, hm⟩
        cases hvs2
        exact ⟨v, hv, hm⟩
    | malformed =>
      simp [scanPayload]
  · intro s h1 h2
    simp [verifyAccess, if_pos (And.intro h1 h2), scanPayload, scanValues]
  · intro s h1 h2
    simp [verifyAccess, if_pos (And.intro h1 h2), scanPayload]
  · intro vs hvs
    simp only [scanPayload, scanValues_eq_any]
    rw [List.any_eq_false]
    intro v hv
    have hpn := principalName_eq_empty_of_no_shape v (hvs v hv).1 (hvs v hv).2
    have h0 : jsToLower "" = "" := rfl
    have h1 : ("" : String) ≠ jsToLower u := fun heq => jsToLower_ne_empty u hu heq.symm
    simp [entryMatches, hpn, h0, h1]
  · intro v rest h
    simp [scanValues, h]

/-- Witness for C5 at target jdoe: a 200 response whose list holds the
differently-cased JDoe matches; an empty list does not. -/
theorem claim_c5_verify_match_witness :
    (verifyAccess (.response 200 (.values [{ name := some "JDoe", user := none }]))
        "jdoe").hasAccess = some true ∧
    (verifyAccess (.response 200 (.values [])) "jdoe").hasAccess = some false :=
  ⟨((claim_c5_verify_match "jdoe" (by decide)).1 200
      (.values [{ name := some "JDoe", user := none }]) (by decide) (by decide)).mpr
    ⟨[{ name := some "JDoe", user := none }], rfl,
      { name := some "JDoe", user := none }, by simp, by decide⟩,
   (claim_c5_verify_match "jdoe" (by decide)).2.1 200 (by decide) (by decide)⟩

/-- C1: a row whose trimmed Access Status is HAS_ACCESS and whose trimmed
Username and Project Key are non-empty yields exactly one markup write,
exactly one image write (landing in the directory chosen by the verify
verdict), and exactly one CSV append, to the output file chosen by the
verify verdict and to no other file — for every revoke outcome (success
204, non-204 status, or transport failure, all covered by the universally
quantified rOut).  The renderer hypotheses say that the invocation
completed without an uncaught exception and that post-processing left an
image at the final path, the normal operating regime of the renderer
(its documented capture and trim fallbacks are still free in renv). -/
theorem claim_c1_one_artifact_one_row (row : Row) (rOut : DeleteOutcome) (vOut : GetOutcome)
    (renv : RenderEnv)
    (hs : field row.accessStatus = "HAS_ACCESS")
    (hu : field row.username ≠ "") (hp : field row.projectKey ≠ "")
    (hev : (createEvidence renv).thrown = none)
    (himg : ((createEvidence renv).files.dest).isSome = true) :
    ((processRow row rOut vOut renv).1.filter isMarkup).length = 1 ∧
    ((processRow row rOut vOut renv).1.filter isImage).length = 1 ∧
    ((processRow row rOut vOut renv).1.filter
        (isImageTo (verdict (verifyAccess vOut (field row.username))))).length = 1 ∧
    ((processRow row rOut vOut renv).1.filter isAppend).length = 1 ∧
    ((processRow row rOut vOut renv).1.filter
        (isAppendTo (verdict (verifyAccess vOut (field row.username))))).length = 1 ∧
    ((processRow row rOut vOut renv).1.filter
        (isAppendTo (! verdict (verifyAccess vOut (field row.username))))).length = 0 ∧
    (processRow row rOut vOut renv).2 = none := by
  rw [processRow_eq_qualifying row rOut vOut renv hu hp hs]
  have hl := recordLogs_filter_eq_nil row rOut (verdict (verifyAccess vOut (field row.username)))
  cases hc : verdict (verifyAccess vOut (field row.username)) <;>
    simp_all [processQualifying, List.filter_append,
      hl isMarkup (fun m => rfl), hl isImage (fun m => rfl), hl isAppend (fun m => rfl),
      hl (isImageTo true) (fun m => rfl), hl (isImageTo false) (fun m => rfl),
      hl (isAppendTo true) (fun m => rfl), hl (isAppendTo false) (fun m => rfl)]

/-- Witness for C1: the fully populated row, a successful revoke, a 200
verify with an empty principal list, and a renderer run in which every
step succeeds. -/
theorem claim_c1_one_artifact_one_row_witness :
    ((processRow row0 (.response 204) (.response 200 (.values [])) okEnv).1.filter
        isMarkup).length = 1 ∧
    ((processRow row0 (.response 204) (.response 200 (.values [])) okEnv).1.filter
        isImage).length = 1 ∧
    ((processRow row0 (.response 204) (.response 200 (.values [])) okEnv).1.filter
        (isImageTo (verdict (verifyAccess (.response 200 (.values []))
          (field row0.username))))).length = 1 ∧
    ((processRow row0 (.response 204) (.response 200 (.values [])) okEnv).1.filter
        isAppend).length = 1 ∧
    ((processRow row0 (.response 204) (.response 200 (.values [])) okEnv).1.filter
        (isAppendTo (verdict (verifyAccess (.response 200 (.values []))
          (field row0.username))))).length = 1 ∧
    ((processRow row0 (.response 204) (.response 200 (.values [])) okEnv).1.filter
        (isAppendTo (! verdict (verifyAccess (.response 200 (.values []))
          (field row0.username))))).length = 0 ∧
    (processRow row0 (.response 204) (.response 200 (.values [])) okEnv).2 = none :=
  claim_c1_one_artifact_one_row row0 (.response 204) (.response 200 (.values [])) okEnv
    (by decide) (by decide) (by decide) (by decide) (by decide)

/-- C3: the categorization of a record is a function of the verify result
alone.  For any two runs receiving the same verify outcome, the revoke
outcome (success 204, non-204 failure, or transport failure) changes
nothing but the console log text: the non-log actions — markup write,
image write with its directory, CSV append with its file — and the thrown
state are identical.  In particular, a 2xx verify response whose principal
list still contains the target username routes the row to the has-access
file, not the no-access one, and the artifact not to the no-access
directory, even when revoke returned 204. -/
theorem claim_c3_category_from_verify_alone :
    (∀ row r1 r2 vOut renv,
      (processRow row r1 vOut renv).1.filter (fun a => !(isLog a))
        = (processRow row r2 vOut renv).1.filter (fun a => !(isLog a)) ∧
      (processRow row r1 vOut renv).2 = (processRow row r2 vOut renv).2) ∧
    (∀ row renv vs s, field row.accessStatus = "HAS_ACCESS" →
      field row.username ≠ "" → field row.projectKey ≠ "" →
      (createEvidence renv).thrown = none → 200 ≤ s → s < 300 →
      scanValues (field row.username) vs = true →
      ((processRow row (.response 204) (.response s (.values vs)) renv).1.filter
          (isAppendTo true)).length = 1 ∧
      ((processRow row (.response 204) (.response s (.values vs)) renv).1.filter
          (isAppendTo false)).length = 0 ∧
      ((processRow row (.response 204) (.response s (.values vs)) renv).1.filter
          (isImageTo false)).length = 0) := by
  constructor
  · intro row r1 r2 vOut renv
    by_cases h1 : field row.username = "" ∨ field row.projectKey = ""
    · simp [processRow, h1]
    · by_cases h2 : field row.accessStatus = "HAS_ACCESS"
      · have hl1 := recordLogs_filter_eq_nil row r1
          (verdict (verifyAccess vOut (field row.username))) (fun a => !(isLog a))
          (fun m => rfl)
        have hl2 := recordLogs_filter_eq_nil row r2
          (verdict (verifyAccess vOut (field row.username))) (fun a => !(isLog a))
          (fun m => rfl)
        cases hth : (createEvidence renv).thrown <;>
          simp [processRow, h1, h2, processQualifying, hth, List.filter_append, hl1, hl2]
      · simp [processRow, h1, h2]
  · intro row renv vs s hsacc hu hp hev h200 h300 hscan
    rw [processRow_eq_qualifying row (.response 204) (.response s (.values vs)) renv hu hp hsacc]
    have hcat : verdict (verifyAccess (.response s (.values vs)) (field row.username)) = true := by
      simp [verifyAccess, if_pos (And.intro h200 h300), verdict, scanPayload, hscan]
    have hl := recordLogs_filter_eq_nil row (.response 204) true
    cases hd : ((createEvidence renv).files.dest).isSome <;>
      simp [processQualifying, hev, hd, hcat, List.filter_append,
        hl (isAppendTo true) (fun m => rfl), hl (isAppendTo false) (fun m => rfl),
        hl (isImageTo false) (fun m => rfl)]

/-- Witness for C3: the second conjunct at the fully populated row, a
renderer run with every step succeeding, a one-entry principal list still
naming jdoe (differently cased), and a 200 verify status. -/
theorem claim_c3_category_from_verify_alone_witness :
    ((processRow row0 (.response 204)
        (.response 200 (.values [{ name := some "JDoe", user := none }])) okEnv).1.filter
        (isAppendTo true)).length = 1 ∧
    ((processRow row0 (.response 204)
        (.response 200 (.values [{ name := some "JDoe", user := none }])) okEnv).1.filter
        (isAppendTo false)).length = 0 ∧
    ((processRow row0 (.response 204)
        (.response 200 (.values [{ name := some "JDoe", user := none }])) okEnv).1.filter
        (isImageTo false)).length = 0 :=
  claim_c3_category_from_verify_alone.2 row0 okEnv
    [{ name := some "JDoe", user := none }] 200
    (by decide) (by decide) (by decide) (by decide) (by decide) (by decide) (by decide)

/-- C10 (implicit): the verify call turns any non-2xx HTTP status into the
same result as a transport failure — the body is not inspected, the
result is identical to the transport-error result for the corresponding
axios message, with succeeded = false, no hasAccess field and no raw
payload.  Consequently no record verified with such a response is ever
routed to the has-access file or image directory, and a qualifying record
is appended to the no-access file even though the user's access state was
never confirmed. -/
theorem claim_c10_http_error_as_transport (s : Nat) (d : Payload)
    (hrange : s < 200 ∨ 300 ≤ s) :
    (∀ u, verifyAccess (.response s d) u = verifyAccess (.netError (httpErrorMessage s)) u) ∧
    (∀ u, (verifyAccess (.response s d) u).ok = false ∧
      (verifyAccess (.response s d) u).hasAccess = none ∧
      (verifyAccess (.response s d) u).raw = none) ∧
    (∀ row rOut renv,
      ((processRow row rOut (.response s d) renv).1.filter (isAppendTo true)).length = 0 ∧
      ((processRow row rOut (.response s d) renv).1.filter (isImageTo true)).length = 0) ∧
    (∀ row rOut renv, field row.accessStatus = "HAS_ACCESS" →
      field row.username ≠ "" → field row.projectKey ≠ "" →
      (createEvidence renv).thrown = none →
      ((processRow row rOut (.response s d) renv).1.filter (isAppendTo false)).length = 1) := by
  have hnot : ¬(200 ≤ s ∧ s < 300) := by omega
  have hva : ∀ u, verifyAccess (.response s d) u
      = verifyAccess (.netError (httpErrorMessage s)) u := by
    intro u
    simp [verifyAccess, hnot]
  have hcat : ∀ u, verdict (verifyAccess (.response s d) u) = false := by
    intro u
    simp [verifyAccess, hnot, verdict]
  refine ⟨hva, ?_, ?_, ?_⟩
  · intro u
    simp [verifyAccess, hnot]
  · intro row rOut renv
    by_cases h1 : field row.username = "" ∨ field row.projectKey = ""
    · simp [processRow, h1]
    · by_cases h2 : field row.accessStatus = "HAS_ACCESS"
      · have hl := recordLogs_filter_eq_nil row rOut false
        cases hth : (createEvidence renv).thrown <;>
          cases hd : ((createEvidence renv).files.dest).isSome <;>
            simp [processRow, h1, h2, processQualifying, hth, hd,
              hcat (field row.username), List.filter_append,
              hl (isAppendTo true) (fun m => rfl), hl (isImageTo true) (fun m => rfl)]
      · simp [processRow, h1, h2]
  · intro row rOut renv hsacc hu hp hev
    rw [processRow_eq_qualifying row rOut (.response s d) renv hu hp hsacc]
    have hl := recordLogs_filter_eq_nil row rOut false
    cases hd : ((createEvidence renv).files.dest).isSome <;>
      simp [processQualifying, hev, hd, hcat (field row.username), List.filter_append,
        hl (isAppendTo false) (fun m => rfl)]

/-- Witness for C10 at HTTP 404: the result equals the transport-failure
result, and the fully populated row is appended once to the no-access file
and never to the has-access file. -/
theorem claim_c10_http_error_as_transport_witness :
    verifyAccess (.response 404 (.values [{ name := some "jdoe", user := none }])) "jdoe"
      = verifyAccess (.netError (httpErrorMessage 404)) "jdoe" ∧
    ((processRow row0 (.response 204)
        (.response 404 (.values [{ name := some "jdoe", user := none }])) okEnv).1.filter
        (isAppendTo true)).length = 0 ∧
    ((processRow row0 (.response 204)
        (.response 404 (.values [{ name := some "jdoe", user := none }])) okEnv).1.filter
        (isAppendTo false)).length = 1 :=
  ⟨(claim_c10_http_error_as_transport 404
      (.values [{ name := some "jdoe", user := none }]) (by omega)).1 "jdoe",
   ((claim_c10_http_error_as_transport 404
      (.values [{ name := some "jdoe", user := none }]) (by omega)).2.2.1 row0
      (.response 204) okEnv).1,
   (claim_c10_http_error_as_transport 404
      (.values [{ name := some "jdoe", user := none }]) (by omega)).2.2.2 row0
      (.response 204) okEnv (by decide) (by decide) (by decide) (by decide)⟩

end RevokeAudit
